import Mathlib

/-!
# virtio-net control-plane header (drivers/net/virtio/virtio.h)

A shallow embedding of the feature-bit catalogue, the hardware handle and the
two inline feature tests of the header, followed by the properties proved
about them.  Machine integers are natural numbers; a `uint64_t` shift is
reduced modulo `2 ^ 64`, and a shift count of 64 or more (undefined in C) is
reported as `none`.

The header only declares `virtio_negotiate_features` and only holds the slots
of the backend operations.  The negotiation and the device-status state
machine are therefore modelled from the specification; each such definition
says so in its comment.
-/

/-! ## Feature-bit constants (virtio.h lines 11-86) -/

def VIRTIO_NET_F_CSUM : Nat := 0
def VIRTIO_NET_F_GUEST_CSUM : Nat := 1
def VIRTIO_NET_F_MTU : Nat := 3
def VIRTIO_NET_F_MAC : Nat := 5
def VIRTIO_NET_F_GUEST_TSO4 : Nat := 7
def VIRTIO_NET_F_GUEST_TSO6 : Nat := 8
def VIRTIO_NET_F_GUEST_ECN : Nat := 9
def VIRTIO_NET_F_GUEST_UFO : Nat := 10
def VIRTIO_NET_F_HOST_TSO4 : Nat := 11
def VIRTIO_NET_F_HOST_TSO6 : Nat := 12
def VIRTIO_NET_F_HOST_ECN : Nat := 13
def VIRTIO_NET_F_HOST_UFO : Nat := 14
def VIRTIO_NET_F_MRG_RXBUF : Nat := 15
def VIRTIO_NET_F_STATUS : Nat := 16
def VIRTIO_NET_F_CTRL_VQ : Nat := 17
def VIRTIO_NET_F_CTRL_RX : Nat := 18
def VIRTIO_NET_F_CTRL_VLAN : Nat := 19
def VIRTIO_NET_F_CTRL_RX_EXTRA : Nat := 20
def VIRTIO_NET_F_GUEST_ANNOUNCE : Nat := 21
def VIRTIO_NET_F_MQ : Nat := 22
def VIRTIO_NET_F_CTRL_MAC_ADDR : Nat := 23
def VIRTIO_F_NOTIFY_ON_EMPTY : Nat := 24
def VIRTIO_F_ANY_LAYOUT : Nat := 27
def VIRTIO_RING_F_INDIRECT_DESC : Nat := 28
def VIRTIO_F_VERSION_1 : Nat := 32
def VIRTIO_F_IOMMU_PLATFORM : Nat := 33
def VIRTIO_F_RING_PACKED : Nat := 34
def VIRTIO_TRANSPORT_F_START : Nat := 28
def VIRTIO_TRANSPORT_F_END : Nat := 34
def VIRTIO_F_IN_ORDER : Nat := 35
def VIRTIO_F_ORDER_PLATFORM : Nat := 36
def VIRTIO_F_NOTIFICATION_DATA : Nat := 38
def VIRTIO_NET_F_SPEED_DUPLEX : Nat := 63
def VIRTIO_RING_F_EVENT_IDX : Nat := 29

/-- Every feature-bit `#define` of the header, in the order the header gives
them.  The two window delimiters `VIRTIO_TRANSPORT_F_START` and
`VIRTIO_TRANSPORT_F_END` are not feature bits and are left out. -/
def header_feature_bits : List Nat :=
  [VIRTIO_NET_F_CSUM, VIRTIO_NET_F_GUEST_CSUM, VIRTIO_NET_F_MTU, VIRTIO_NET_F_MAC,
   VIRTIO_NET_F_GUEST_TSO4, VIRTIO_NET_F_GUEST_TSO6, VIRTIO_NET_F_GUEST_ECN,
   VIRTIO_NET_F_GUEST_UFO, VIRTIO_NET_F_HOST_TSO4, VIRTIO_NET_F_HOST_TSO6,
   VIRTIO_NET_F_HOST_ECN, VIRTIO_NET_F_HOST_UFO, VIRTIO_NET_F_MRG_RXBUF,
   VIRTIO_NET_F_STATUS, VIRTIO_NET_F_CTRL_VQ, VIRTIO_NET_F_CTRL_RX,
   VIRTIO_NET_F_CTRL_VLAN, VIRTIO_NET_F_CTRL_RX_EXTRA, VIRTIO_NET_F_GUEST_ANNOUNCE,
   VIRTIO_NET_F_MQ, VIRTIO_NET_F_CTRL_MAC_ADDR, VIRTIO_F_NOTIFY_ON_EMPTY,
   VIRTIO_F_ANY_LAYOUT, VIRTIO_RING_F_INDIRECT_DESC, VIRTIO_F_VERSION_1,
   VIRTIO_F_IOMMU_PLATFORM, VIRTIO_F_RING_PACKED, VIRTIO_F_IN_ORDER,
   VIRTIO_F_ORDER_PLATFORM, VIRTIO_F_NOTIFICATION_DATA, VIRTIO_NET_F_SPEED_DUPLEX,
   VIRTIO_RING_F_EVENT_IDX]

/-- The wire-stable catalogue as section 6 of the specification words it:
checksum/offload/TSO/UFO/ECN variants (0, 1, 7-14), MAC (5), MTU (3),
merge-receive-buffers (15), status (16), control channel and sub-capabilities
(17-20, 23), guest-announce (21), multiqueue (22), notify-on-empty (24),
any-layout (27), indirect descriptors (28), event-index (29), version-1 (32),
IOMMU-platform (33), packed-ring (34), in-order (35), order-platform (36),
notification-data (38), speed/duplex (63). -/
def catalogue_bits : List Nat :=
  [0, 1, 7, 8, 9, 10, 11, 12, 13, 14, 5, 3, 15, 16, 17, 18, 19, 20, 23, 21, 22,
   24, 27, 28, 29, 32, 33, 34, 35, 36, 38, 63]

/-- Every net-device feature bit of the header, the `VIRTIO_NET_F_*`
constants, in the order the header gives them. -/
def net_feature_bits : List Nat :=
  [VIRTIO_NET_F_CSUM, VIRTIO_NET_F_GUEST_CSUM, VIRTIO_NET_F_MTU, VIRTIO_NET_F_MAC,
   VIRTIO_NET_F_GUEST_TSO4, VIRTIO_NET_F_GUEST_TSO6, VIRTIO_NET_F_GUEST_ECN,
   VIRTIO_NET_F_GUEST_UFO, VIRTIO_NET_F_HOST_TSO4, VIRTIO_NET_F_HOST_TSO6,
   VIRTIO_NET_F_HOST_ECN, VIRTIO_NET_F_HOST_UFO, VIRTIO_NET_F_MRG_RXBUF,
   VIRTIO_NET_F_STATUS, VIRTIO_NET_F_CTRL_VQ, VIRTIO_NET_F_CTRL_RX,
   VIRTIO_NET_F_CTRL_VLAN, VIRTIO_NET_F_CTRL_RX_EXTRA, VIRTIO_NET_F_GUEST_ANNOUNCE,
   VIRTIO_NET_F_MQ, VIRTIO_NET_F_CTRL_MAC_ADDR, VIRTIO_NET_F_SPEED_DUPLEX]

/-! ## Link-status bits (virtio.h lines 88-89) -/

def VIRTIO_NET_S_LINK_UP : Nat := 1
def VIRTIO_NET_S_ANNOUNCE : Nat := 2

/-! ## The hardware handle (virtio.h lines 91-121) -/

/-- The per-port state `struct virtio_hw`.  Pointers and the spinlock are
kept as plain numbers; every integer field holds the value of its C type. -/
structure virtio_hw where
  vqs : Nat
  guest_features : Nat
  vtnet_hdr_size : Nat
  started : Nat
  weak_barriers : Nat
  vlan_strip : Nat
  has_tx_offload : Nat
  has_rx_offload : Nat
  use_vec_rx : Nat
  use_vec_tx : Nat
  use_inorder_rx : Nat
  use_inorder_tx : Nat
  opened : Nat
  port_id : Nat
  mac_addr : List Nat
  speed : Nat
  duplex : Nat
  use_msix : Nat
  max_mtu : Nat
  state_lock : Nat
  inject_pkts : Nat
  max_queue_pairs : Nat
  req_guest_features : Nat
  cvq : Nat
  deriving DecidableEq, Repr

/-- A zero-filled handle, as a fresh allocation leaves it. -/
def virtio_hw_zero : virtio_hw :=
  { vqs := 0, guest_features := 0, vtnet_hdr_size := 0, started := 0,
    weak_barriers := 0, vlan_strip := 0, has_tx_offload := 0, has_rx_offload := 0,
    use_vec_rx := 0, use_vec_tx := 0, use_inorder_rx := 0, use_inorder_tx := 0,
    opened := 0, port_id := 0, mac_addr := [0, 0, 0, 0, 0, 0], speed := 0,
    duplex := 0, use_msix := 0, max_mtu := 0, state_lock := 0, inject_pkts := 0,
    max_queue_pairs := 0, req_guest_features := 0, cvq := 0 }

/-! ## Inline feature tests (virtio.h lines 154-164) -/

/-- The C expression `1ULL << bit`: the shift is undefined for a count of 64
or more; otherwise the value is reduced to 64 bits. -/
def shl1_u64 (bit : Nat) : Option Nat :=
  if bit < 64 then some ((1 <<< bit) % 2 ^ 64) else none

/-- `virtio_with_feature`: `(hw->guest_features & (1ULL << bit)) != 0`, an
`int` that is 1 when the comparison holds and 0 otherwise. -/
def virtio_with_feature (hw : virtio_hw) (bit : Nat) : Option Int :=
  match shl1_u64 bit with
  | some m => some (if hw.guest_features &&& m ≠ 0 then 1 else 0)
  | none => none

/-- `virtio_with_packed_queue`: `virtio_with_feature(hw, VIRTIO_F_RING_PACKED)`. -/
def virtio_with_packed_queue (hw : virtio_hw) : Option Int :=
  virtio_with_feature hw VIRTIO_F_RING_PACKED

/-- Modelled from the spec: the "is this bit within the transport window"
classification of a FeatureSet, which the header does not implement; the spec
gives the window as inclusive of both delimiters. -/
def is_transport_bit (b : Nat) : Bool :=
  decide (VIRTIO_TRANSPORT_F_START ≤ b) && decide (b ≤ VIRTIO_TRANSPORT_F_END)

/-! ## Feature negotiation (declared at virtio.h line 166, body not in the header) -/

/-- Modelled from the spec: one entry of the prerequisite table of section
4.1 rule (a), "a feature bit implies a prerequisite bit".  The header holds no
such table; the spec asks for it to be configuration data. -/
structure prereq_rule where
  dependent : Nat
  prerequisite : Nat
  deriving DecidableEq, Repr

/-- Modelled from the spec: the two prerequisite families section 4.1 names as
examples, packed ring on ring indirection and each guest offload bit on the
corresponding host offload bit.  The header has no such table. -/
def example_prereq_rules : List prereq_rule :=
  [⟨VIRTIO_F_RING_PACKED, VIRTIO_RING_F_INDIRECT_DESC⟩,
   ⟨VIRTIO_NET_F_GUEST_CSUM, VIRTIO_NET_F_CSUM⟩,
   ⟨VIRTIO_NET_F_GUEST_TSO4, VIRTIO_NET_F_HOST_TSO4⟩,
   ⟨VIRTIO_NET_F_GUEST_TSO6, VIRTIO_NET_F_HOST_TSO6⟩,
   ⟨VIRTIO_NET_F_GUEST_ECN, VIRTIO_NET_F_HOST_ECN⟩,
   ⟨VIRTIO_NET_F_GUEST_UFO, VIRTIO_NET_F_HOST_UFO⟩]

/-- Modelled from the spec: rule (b) of section 4.1, which the header does not
implement.  A transport-window bit is never dropped on account of a bit
outside the window, so a table entry whose dependent bit is a transport bit
is honoured only when its prerequisite is a transport bit too. -/
def rule_in_force (r : prereq_rule) : Bool :=
  !(is_transport_bit r.dependent) || is_transport_bit r.prerequisite

/-- Modelled from the spec: removal of one feature from a 64-bit mask,
`m & ~(1ULL << bit)`; the header has no such helper.  A position past the
mask width names no feature and removes nothing. -/
def feature_drop (m bit : Nat) : Nat :=
  match shl1_u64 bit with
  | some b => m &&& ((2 ^ 64 - 1) ^^^ b)
  | none => m

/-- Modelled from the spec: the validation of section 4.1, absent from the
header.  Every table entry in force whose prerequisite is absent from the
candidate has its dependent bit dropped (degrade gracefully, never fail). -/
def validate_features (rules : List prereq_rule) (candidate : Nat) : Nat :=
  rules.foldl
    (fun m r =>
      if rule_in_force r && !(candidate.testBit r.prerequisite) then
        feature_drop m r.dependent
      else m)
    candidate

/-- Modelled from the spec: `negotiate(handle, host_offered)` of section 4.1,
the body of `virtio_negotiate_features`, which the header only declares.  The
candidate is the intersection of the host offer with the handle's requested
set, then validated against the prerequisite table. -/
def virtio_negotiate_features (rules : List prereq_rule) (hw : virtio_hw)
    (host_features : Nat) : Nat :=
  validate_features rules (host_features &&& hw.req_guest_features)

/-- The host offer of the concrete scenario of section 8, item 6:
`{CSUM, GUEST_CSUM, MRG_RXBUF, STATUS, VERSION_1}`. -/
def scenario_host_offer : Nat :=
  (1 <<< VIRTIO_NET_F_CSUM) ||| (1 <<< VIRTIO_NET_F_GUEST_CSUM) |||
  (1 <<< VIRTIO_NET_F_MRG_RXBUF) ||| (1 <<< VIRTIO_NET_F_STATUS) |||
  (1 <<< VIRTIO_F_VERSION_1)

/-- The driver request of the same scenario:
`{CSUM, MRG_RXBUF, STATUS, VERSION_1, MQ}`. -/
def scenario_requested : Nat :=
  (1 <<< VIRTIO_NET_F_CSUM) ||| (1 <<< VIRTIO_NET_F_MRG_RXBUF) |||
  (1 <<< VIRTIO_NET_F_STATUS) ||| (1 <<< VIRTIO_F_VERSION_1) |||
  (1 <<< VIRTIO_NET_F_MQ)

/-- The negotiated set the scenario expects:
`{CSUM, MRG_RXBUF, STATUS, VERSION_1}`. -/
def scenario_negotiated : Nat :=
  (1 <<< VIRTIO_NET_F_CSUM) ||| (1 <<< VIRTIO_NET_F_MRG_RXBUF) |||
  (1 <<< VIRTIO_NET_F_STATUS) ||| (1 <<< VIRTIO_F_VERSION_1)

/-- The device bits the independence property clears from a request: bits 0
to 23 and bit 63. -/
def DEVICE_BITS_MASK : Nat := 0x8000000000FFFFFF

/-- The transport window as a mask: bits 28 to 34. -/
def TRANSPORT_WINDOW_MASK : Nat := 0x7F0000000

/-! ## Device-status state machine (section 4.3; the header has only the
`get_status` / `set_status` slots of `struct virtio_ops`) -/

/-- Modelled from the spec: the RESET status value of section 4.3, zero.  The
header defines none of the device-status values; for the named bits the
encodings of the virtio standard are used. -/
def VIRTIO_CONFIG_STATUS_RESET : Nat := 0x00
/-- Modelled from the spec: the ACKNOWLEDGE status bit of section 4.3, not defined
by the header; virtio standard encoding. -/
def VIRTIO_CONFIG_STATUS_ACK : Nat := 0x01
/-- Modelled from the spec: the DRIVER status bit of section 4.3, not defined
by the header; virtio standard encoding. -/
def VIRTIO_CONFIG_STATUS_DRIVER : Nat := 0x02
/-- Modelled from the spec: the DRIVER_OK status bit of section 4.3, not defined
by the header; virtio standard encoding. -/
def VIRTIO_CONFIG_STATUS_DRIVER_OK : Nat := 0x04
/-- Modelled from the spec: the FEATURES_OK status bit of section 4.3, not defined
by the header; virtio standard encoding. -/
def VIRTIO_CONFIG_STATUS_FEATURES_OK : Nat := 0x08
/-- Modelled from the spec: the NEEDS_RESET status bit of section 4.3, not defined
by the header; virtio standard encoding. -/
def VIRTIO_CONFIG_STATUS_DEV_NEED_RESET : Nat := 0x40
/-- Modelled from the spec: the FAILED status bit of section 4.3, not defined
by the header; virtio standard encoding. -/
def VIRTIO_CONFIG_STATUS_FAILED : Nat := 0x80

/-- Modelled from the spec: the states of the DeviceStateMachine of section
4.3, which the header does not declare. -/
inductive vsm_state where
  | RESET
  | ACKNOWLEDGE
  | DRIVER
  | FEATURES_OK
  | DRIVER_OK
  | FAILED
  | NEEDS_RESET
  deriving DecidableEq, Repr

/-- Modelled from the spec: a device under the state machine, absent from the
header: the handle, the point the driver has reached, the device-status byte
kept by the backend (what `get_status` reads and `set_status` writes), whether
`set_features` was issued in this attach cycle, and whether FEATURES_OK was
read back as retained in this attach cycle. -/
structure virtio_dev where
  hw : virtio_hw
  state : vsm_state
  status : Nat
  features_written : Bool
  features_ok_retained : Bool
  deriving DecidableEq, Repr

/-- Modelled from the spec: what can happen to a device, absent from the
header: the driver-side transitions of section 4.3, the negotiation of
section 4.1, and the backend withdrawing FEATURES_OK. -/
inductive vsm_event where
  | reset
  | acknowledge
  | driver
  | negotiate (rules : List prereq_rule) (host_features : Nat)
  | write_features_ok
  | backend_clear_features_ok
  | read_back
  | driver_ok
  | fail
  | needs_reset
  deriving DecidableEq, Repr

/-- Modelled from the spec: the `get_status` backend operation, a read of the
device-status byte; the header has only its slot. -/
def get_status (d : virtio_dev) : Nat := d.status

/-- Modelled from the spec: the `set_status` backend operation, one write of
the device-status byte; the header has only its slot. -/
def set_status (d : virtio_dev) (status : Nat) : virtio_dev :=
  { d with status := status % 256 }

/-- Modelled from the spec: the full reset of section 4.3, absent from the
header: all status bits cleared in one write, the negotiated features
discarded, a new attach cycle begun. -/
def vsm_reset (d : virtio_dev) : virtio_dev :=
  let d1 := set_status d VIRTIO_CONFIG_STATUS_RESET
  { d1 with
    hw := { d1.hw with guest_features := 0 },
    state := vsm_state.RESET,
    features_written := false,
    features_ok_retained := false }

/-- Modelled from the spec: adding one status bit, as every forward
transition of section 4.3 does (writes are monotonic-or-reset). -/
def vsm_add_status (d : virtio_dev) (bit : Nat) (next : vsm_state) : virtio_dev :=
  { set_status d (get_status d ||| bit) with state := next }

/-- Modelled from the spec: one transition of the DeviceStateMachine of
section 4.3, absent from the header.  `none` is a refused transition (a
precondition violation reported to the caller).  Transitions are strictly
forward; FEATURES_OK is written and then re-read, a cleared bit failing the
device; DRIVER_OK needs FEATURES_OK observed as retained. -/
def vsm_step (d : virtio_dev) : vsm_event → Option virtio_dev
  | vsm_event.reset => some (vsm_reset d)
  | vsm_event.acknowledge =>
    if d.state = vsm_state.RESET then
      some (vsm_add_status d VIRTIO_CONFIG_STATUS_ACK vsm_state.ACKNOWLEDGE)
    else none
  | vsm_event.driver =>
    if d.state = vsm_state.ACKNOWLEDGE then
      some (vsm_add_status d VIRTIO_CONFIG_STATUS_DRIVER vsm_state.DRIVER)
    else none
  | vsm_event.negotiate rules host_features =>
    if d.state = vsm_state.DRIVER ∧ d.features_written = false then
      some { d with
        hw := { d.hw with
          guest_features := virtio_negotiate_features rules d.hw host_features },
        features_written := true }
    else none
  | vsm_event.write_features_ok =>
    if d.state = vsm_state.DRIVER ∧ d.features_written = true then
      some (vsm_add_status d VIRTIO_CONFIG_STATUS_FEATURES_OK vsm_state.FEATURES_OK)
    else none
  | vsm_event.backend_clear_features_ok =>
    some { d with status := d.status &&& (0xFF ^^^ VIRTIO_CONFIG_STATUS_FEATURES_OK) }
  | vsm_event.read_back =>
    if d.state = vsm_state.FEATURES_OK then
      if get_status d &&& VIRTIO_CONFIG_STATUS_FEATURES_OK ≠ 0 then
        some { d with features_ok_retained := true }
      else
        some (vsm_add_status d VIRTIO_CONFIG_STATUS_FAILED vsm_state.FAILED)
    else none
  | vsm_event.driver_ok =>
    if d.state = vsm_state.FEATURES_OK ∧ d.features_ok_retained = true then
      some (vsm_add_status d VIRTIO_CONFIG_STATUS_DRIVER_OK vsm_state.DRIVER_OK)
    else none
  | vsm_event.fail =>
    if d.state ≠ vsm_state.RESET then
      some (vsm_add_status d VIRTIO_CONFIG_STATUS_FAILED vsm_state.FAILED)
    else none
  | vsm_event.needs_reset =>
    if d.state ≠ vsm_state.RESET then
      some (vsm_add_status d VIRTIO_CONFIG_STATUS_DEV_NEED_RESET vsm_state.NEEDS_RESET)
    else none

/-- Modelled from the spec: a refused transition leaves the device as it was. -/
def vsm_next (d : virtio_dev) (e : vsm_event) : virtio_dev :=
  (vsm_step d e).getD d

/-- Modelled from the spec: a run of the state machine, event after event. -/
def vsm_run (d : virtio_dev) (es : List vsm_event) : virtio_dev :=
  es.foldl vsm_next d

/-- Modelled from the spec: a device as attach leaves it, freshly reset. -/
def vsm_init (hw : virtio_hw) : virtio_dev :=
  vsm_reset
    { hw := hw, state := vsm_state.RESET, status := 0,
      features_written := false, features_ok_retained := false }

/-! ## Operation dispatch (virtio.h lines 142-151) -/

/-- The per-process record `struct virtio_hw_internal`: the pointer to the
port's `struct virtio_ops`, kept as a plain number. -/
structure virtio_hw_internal where
  virtio_ops : Nat
  deriving DecidableEq, Repr

/-- The macro `VIRTIO_OPS(hw)`: `virtio_hw_internal[(hw)->port_id].virtio_ops`.
The process-wide array is passed as `registry`; an index past its end is
undefined in C and reported as `none`. -/
def VIRTIO_OPS (registry : List virtio_hw_internal) (hw : virtio_hw) : Option Nat :=
  match registry[hw.port_id]? with
  | some entry => some entry.virtio_ops
  | none => none

/-- The call `virtio_with_feature(hw, bit)` as it acts on the handle it gets
by pointer: the body reads `hw->guest_features` and stores nothing, so the
handle after the call is the handle before it. -/
def virtio_with_feature_call (hw : virtio_hw) (bit : Nat) : Option Int × virtio_hw :=
  (virtio_with_feature hw bit, hw)

/-! ## Virtqueue lifecycle (section 4.4; the header has only the
`get_queue_num` / `setup_queue` / `del_queue` slots of `struct virtio_ops`) -/

/-- Modelled from the spec: the backend operations the queue lifecycle of
section 4.4 invokes; the header has only their slots. -/
inductive backend_call where
  | get_queue_num (queue_id : Nat)
  | setup_queue (queue_id : Nat)
  | del_queue (queue_id : Nat)
  deriving DecidableEq, Repr

/-- Modelled from the spec: a backend as the queue lifecycle sees it, absent
from the header: the depth it advertises for each queue id, the queues whose
resources it holds, and the record of every operation invoked on it. -/
structure vq_backend where
  depths : List Nat
  active : List Nat
  calls : List backend_call
  deriving DecidableEq, Repr

/-- Modelled from the spec: the two ways `setup_queue` fails in sections 4.4
and 7, a precondition violation and QueueNotPresent; the header declares no
error type. -/
inductive vq_error where
  | Precondition
  | NotPresent
  deriving DecidableEq, Repr

/-- Modelled from the spec: the QueueHandle a successful setup returns, absent
from the header. -/
structure vq_handle where
  queue_id : Nat
  depth : Nat
  deriving DecidableEq, Repr

/-- Modelled from the spec: the backend operation `get_queue_num`, the depth
the backend advertises for a queue id (zero for a queue it does not have);
the header has only its slot. -/
def backend_get_queue_num (b : vq_backend) (queue_id : Nat) : Nat × vq_backend :=
  (b.depths.getD queue_id 0,
   { b with calls := b.calls ++ [backend_call.get_queue_num queue_id] })

/-- Modelled from the spec: the backend side of `setup_queue`, the allocation
of the backend resources of one queue; the header has only its slot. -/
def backend_setup_queue (b : vq_backend) (queue_id : Nat) : vq_backend :=
  { b with
    active := queue_id :: b.active,
    calls := b.calls ++ [backend_call.setup_queue queue_id] }

/-- Modelled from the spec: "at or past FEATURES_OK" of section 4.4; a
FAILED or NEEDS_RESET device is not (section 8, item 8). -/
def at_or_past_features_ok (s : vsm_state) : Bool :=
  decide (s = vsm_state.FEATURES_OK) || decide (s = vsm_state.DRIVER_OK)

/-- Modelled from the spec: `setup_queue` of sections 4.2 and 4.4, whose body
is not in the header.  The two preconditions (device at or past FEATURES_OK,
`queue_id < max_queue_pairs`) are checked locally; then `get_queue_num` is
queried, a zero depth failing with NotPresent; then the backend allocates the
queue. -/
def setup_queue (d : virtio_dev) (b : vq_backend) (queue_id : Nat) :
    Except vq_error vq_handle × vq_backend :=
  if at_or_past_features_ok d.state = false then
    (Except.error vq_error.Precondition, b)
  else if d.hw.max_queue_pairs ≤ queue_id then
    (Except.error vq_error.Precondition, b)
  else
    let r := backend_get_queue_num b queue_id
    if r.1 = 0 then
      (Except.error vq_error.NotPresent, r.2)
    else
      (Except.ok { queue_id := queue_id, depth := r.1 }, backend_setup_queue r.2 queue_id)

/-! ## Auxiliary facts about single-bit masks -/

theorem and_shl1_ne_zero_iff (x b : Nat) :
    x &&& (1 <<< b) ≠ 0 ↔ x.testBit b = true := by
  rw [Nat.one_shiftLeft]
  constructor
  · intro h
    by_contra hb
    apply h
    apply Nat.eq_of_testBit_eq
    intro i
    simp only [Nat.testBit_and, Nat.testBit_two_pow, Nat.zero_testBit]
    by_cases hi : b = i
    · subst hi; simp [hb]
    · simp [hi]
  · intro hb h
    have := congrArg (fun n => n.testBit b) h
    simp [Nat.testBit_two_pow, hb] at this

theorem shl1_u64_of_lt {b : Nat} (hb : b < 64) : shl1_u64 b = some (1 <<< b) := by
  have h : (1 <<< b) % 2 ^ 64 = 1 <<< b := by
    apply Nat.mod_eq_of_lt
    rw [Nat.one_shiftLeft]
    exact Nat.pow_lt_pow_right (by decide) hb
  unfold shl1_u64
  rw [if_pos hb, h]

theorem virtio_with_feature_of_lt (hw : virtio_hw) {b : Nat} (hb : b < 64) :
    virtio_with_feature hw b = some (if hw.guest_features.testBit b then 1 else 0) := by
  unfold virtio_with_feature
  rw [shl1_u64_of_lt hb]
  by_cases h : hw.guest_features.testBit b = true
  · have := (and_shl1_ne_zero_iff hw.guest_features b).2 h
    simp [h, this]
  · have : ¬ (hw.guest_features &&& (1 <<< b) ≠ 0) :=
      fun hne => h ((and_shl1_ne_zero_iff hw.guest_features b).1 hne)
    simp only [if_neg this]
    simp [h]

theorem transport_mask_testBit (b : Nat) :
    (0x7F0000000 : Nat).testBit b = is_transport_bit b := by
  have h : (0x7F0000000 : Nat) = (2 ^ 7 - 1) <<< 28 := by decide
  rw [h, Nat.testBit_shiftLeft, Nat.testBit_two_pow_sub_one]
  unfold is_transport_bit VIRTIO_TRANSPORT_F_START VIRTIO_TRANSPORT_F_END
  by_cases h1 : 28 ≤ b <;> by_cases h2 : b ≤ 34 <;> simp [h1, h2] <;> omega

/-! ## The catalogue and the constants -/

/-- C4: every feature-bit constant of the header has the position the
wire-stable catalogue gives it, and the header's feature bits are exactly the
catalogue's (the same 32 positions, none missing and none extra). -/
theorem feature_bits_match_catalogue :
    (VIRTIO_NET_F_CSUM = 0 ∧ VIRTIO_NET_F_GUEST_CSUM = 1 ∧ VIRTIO_NET_F_MTU = 3 ∧
      VIRTIO_NET_F_MAC = 5 ∧ VIRTIO_NET_F_GUEST_TSO4 = 7 ∧ VIRTIO_NET_F_GUEST_TSO6 = 8 ∧
      VIRTIO_NET_F_GUEST_ECN = 9 ∧ VIRTIO_NET_F_GUEST_UFO = 10 ∧
      VIRTIO_NET_F_HOST_TSO4 = 11 ∧ VIRTIO_NET_F_HOST_TSO6 = 12 ∧
      VIRTIO_NET_F_HOST_ECN = 13 ∧ VIRTIO_NET_F_HOST_UFO = 14 ∧
      VIRTIO_NET_F_MRG_RXBUF = 15 ∧ VIRTIO_NET_F_STATUS = 16 ∧
      VIRTIO_NET_F_CTRL_VQ = 17 ∧ VIRTIO_NET_F_CTRL_RX = 18 ∧
      VIRTIO_NET_F_CTRL_VLAN = 19 ∧ VIRTIO_NET_F_CTRL_RX_EXTRA = 20 ∧
      VIRTIO_NET_F_GUEST_ANNOUNCE = 21 ∧ VIRTIO_NET_F_MQ = 22 ∧
      VIRTIO_NET_F_CTRL_MAC_ADDR = 23 ∧ VIRTIO_F_NOTIFY_ON_EMPTY = 24 ∧
      VIRTIO_F_ANY_LAYOUT = 27 ∧ VIRTIO_RING_F_INDIRECT_DESC = 28 ∧
      VIRTIO_RING_F_EVENT_IDX = 29 ∧ VIRTIO_F_VERSION_1 = 32 ∧
      VIRTIO_F_IOMMU_PLATFORM = 33 ∧ VIRTIO_F_RING_PACKED = 34 ∧
      VIRTIO_F_IN_ORDER = 35 ∧ VIRTIO_F_ORDER_PLATFORM = 36 ∧
      VIRTIO_F_NOTIFICATION_DATA = 38 ∧ VIRTIO_NET_F_SPEED_DUPLEX = 63) ∧
    header_feature_bits.length = 32 ∧
    header_feature_bits.Nodup ∧
    (∀ b : Nat, b ∈ header_feature_bits ↔ b ∈ catalogue_bits) := by
  refine ⟨by decide, by decide, by decide, ?_⟩
  intro b
  simp only [header_feature_bits, catalogue_bits, VIRTIO_NET_F_CSUM,
    VIRTIO_NET_F_GUEST_CSUM, VIRTIO_NET_F_MTU, VIRTIO_NET_F_MAC, VIRTIO_NET_F_GUEST_TSO4,
    VIRTIO_NET_F_GUEST_TSO6, VIRTIO_NET_F_GUEST_ECN, VIRTIO_NET_F_GUEST_UFO,
    VIRTIO_NET_F_HOST_TSO4, VIRTIO_NET_F_HOST_TSO6, VIRTIO_NET_F_HOST_ECN,
    VIRTIO_NET_F_HOST_UFO, VIRTIO_NET_F_MRG_RXBUF, VIRTIO_NET_F_STATUS,
    VIRTIO_NET_F_CTRL_VQ, VIRTIO_NET_F_CTRL_RX, VIRTIO_NET_F_CTRL_VLAN,
    VIRTIO_NET_F_CTRL_RX_EXTRA, VIRTIO_NET_F_GUEST_ANNOUNCE, VIRTIO_NET_F_MQ,
    VIRTIO_NET_F_CTRL_MAC_ADDR, VIRTIO_F_NOTIFY_ON_EMPTY, VIRTIO_F_ANY_LAYOUT,
    VIRTIO_RING_F_INDIRECT_DESC, VIRTIO_F_VERSION_1, VIRTIO_F_IOMMU_PLATFORM,
    VIRTIO_F_RING_PACKED, VIRTIO_F_IN_ORDER, VIRTIO_F_ORDER_PLATFORM,
    VIRTIO_F_NOTIFICATION_DATA, VIRTIO_NET_F_SPEED_DUPLEX, VIRTIO_RING_F_EVENT_IDX,
    List.mem_cons, List.not_mem_nil, or_false]
  omega

/-- C5: the transport window is delimited by 28 and 34, both inclusive: a bit
index is classified as a transport bit exactly when it lies in 28..34, which
is 7 positions, the bits of the mask 0x7F0000000. -/
theorem transport_window_is_28_to_34 :
    VIRTIO_TRANSPORT_F_START = 28 ∧ VIRTIO_TRANSPORT_F_END = 34 ∧
    (∀ b : Nat, is_transport_bit b = true ↔ (28 ≤ b ∧ b ≤ 34)) ∧
    VIRTIO_TRANSPORT_F_END - VIRTIO_TRANSPORT_F_START + 1 = 7 ∧
    (∀ b : Nat, (0x7F0000000 : Nat).testBit b = is_transport_bit b) := by
  refine ⟨rfl, rfl, ?_, by decide, transport_mask_testBit⟩
  intro b
  simp [is_transport_bit, VIRTIO_TRANSPORT_F_START, VIRTIO_TRANSPORT_F_END]

/-- C8: the link-status bits are LINK_UP = 1 and ANNOUNCE = 2, disjoint
single-bit masks (bits 0 and 1), so in every status word setting or clearing
one leaves the test of the other unchanged. -/
theorem link_status_bits_independent :
    VIRTIO_NET_S_LINK_UP = 1 ∧ VIRTIO_NET_S_ANNOUNCE = 2 ∧
    VIRTIO_NET_S_LINK_UP = 1 <<< 0 ∧ VIRTIO_NET_S_ANNOUNCE = 1 <<< 1 ∧
    VIRTIO_NET_S_LINK_UP &&& VIRTIO_NET_S_ANNOUNCE = 0 ∧
    (∀ s : Nat,
      (s ||| VIRTIO_NET_S_ANNOUNCE) &&& VIRTIO_NET_S_LINK_UP = s &&& VIRTIO_NET_S_LINK_UP ∧
      (s ||| VIRTIO_NET_S_LINK_UP) &&& VIRTIO_NET_S_ANNOUNCE = s &&& VIRTIO_NET_S_ANNOUNCE ∧
      (s &&& (0xFFFF ^^^ VIRTIO_NET_S_ANNOUNCE)) &&& VIRTIO_NET_S_LINK_UP
        = (s % 2 ^ 16) &&& VIRTIO_NET_S_LINK_UP ∧
      (s &&& (0xFFFF ^^^ VIRTIO_NET_S_LINK_UP)) &&& VIRTIO_NET_S_ANNOUNCE
        = (s % 2 ^ 16) &&& VIRTIO_NET_S_ANNOUNCE) := by
  refine ⟨rfl, rfl, rfl, rfl, by decide, ?_⟩
  intro s
  have h1 : VIRTIO_NET_S_LINK_UP = 2 ^ 0 := rfl
  have h2 : VIRTIO_NET_S_ANNOUNCE = 2 ^ 1 := rfl
  have h3 : (0xFFFF : Nat) = 2 ^ 16 - 1 := by decide
  rw [h1, h2, h3]
  refine ⟨?_, ?_, ?_, ?_⟩ <;>
  · apply Nat.eq_of_testBit_eq
    intro i
    simp only [Nat.testBit_and, Nat.testBit_or, Nat.testBit_xor, Nat.testBit_two_pow,
      Nat.testBit_two_pow_sub_one, Nat.testBit_mod_two_pow]
    by_cases h0 : 0 = i <;> by_cases h1 : 1 = i <;> by_cases h16 : i < 16 <;>
      simp [h0, h1, h16] <;> omega

/-! ## The inline feature tests -/

/-- C6: `virtio_with_feature` is the membership test of the negotiated set:
for a bit index below 64 it returns 1 when that bit of `guest_features` is set
and 0 otherwise; the result is exactly 0 or 1, and nonzero exactly when
`(guest_features >> b) & 1` is 1. -/
theorem virtio_with_feature_is_membership (hw : virtio_hw) (b : Nat) (hb : b < 64) :
    ∃ r : Int, virtio_with_feature hw b = some r ∧
      (r = 0 ∨ r = 1) ∧
      (r = 1 ↔ hw.guest_features.testBit b = true) ∧
      (r = 0 ↔ hw.guest_features.testBit b = false) ∧
      (r ≠ 0 ↔ (hw.guest_features >>> b) &&& 1 = 1) := by
  refine ⟨if hw.guest_features.testBit b then 1 else 0,
    virtio_with_feature_of_lt hw hb, ?_⟩
  have hshift : ((hw.guest_features >>> b) &&& 1 = 1) ↔ hw.guest_features.testBit b = true := by
    rw [Nat.and_comm]
    simp [Nat.testBit]
  rw [hshift]
  cases h : hw.guest_features.testBit b <;> simp

/-- Witness for C6: bit 34 of the mask 0x400000000 is a member. -/
theorem virtio_with_feature_is_membership_witness :
    ∃ r : Int,
      virtio_with_feature { virtio_hw_zero with guest_features := 0x400000000 } 34 = some r ∧
      (r = 0 ∨ r = 1) ∧
      (r = 1 ↔
        ({ virtio_hw_zero with guest_features := 0x400000000 } : virtio_hw).guest_features.testBit 34
          = true) ∧
      (r = 0 ↔
        ({ virtio_hw_zero with guest_features := 0x400000000 } : virtio_hw).guest_features.testBit 34
          = false) ∧
      (r ≠ 0 ↔
        (({ virtio_hw_zero with guest_features := 0x400000000 } : virtio_hw).guest_features
          >>> 34) &&& 1 = 1) :=
  virtio_with_feature_is_membership
    { virtio_hw_zero with guest_features := 0x400000000 } 34 (by decide)

/-- C7: packed-versus-split selection reads the negotiated set alone:
`virtio_with_packed_queue` is `virtio_with_feature` at `VIRTIO_F_RING_PACKED`,
it returns 1 exactly when bit 34 of `guest_features` is set and 0 otherwise,
and two handles that agree on bit 34 get the same answer whatever their other
bits and fields are. -/
theorem packed_queue_reads_bit_34 (hw : virtio_hw) :
    virtio_with_packed_queue hw = virtio_with_feature hw VIRTIO_F_RING_PACKED ∧
    virtio_with_packed_queue hw = some (if hw.guest_features.testBit 34 then 1 else 0) ∧
    (∀ other : virtio_hw,
      other.guest_features.testBit 34 = hw.guest_features.testBit 34 →
      virtio_with_packed_queue other = virtio_with_packed_queue hw) := by
  have key : ∀ h : virtio_hw,
      virtio_with_packed_queue h = some (if h.guest_features.testBit 34 then 1 else 0) :=
    fun h => virtio_with_feature_of_lt h (by decide)
  refine ⟨rfl, key hw, ?_⟩
  intro other hsame
  rw [key other, key hw, hsame]

/-! ## Auxiliary facts about the validation of a candidate mask -/

theorem feature_drop_testBit (m : Nat) {b : Nat} (hb : b < 64) (i : Nat) :
    (feature_drop m b).testBit i = (m.testBit i && (decide (i < 64) && !decide (b = i))) := by
  unfold feature_drop
  rw [shl1_u64_of_lt hb, Nat.one_shiftLeft]
  simp only [Nat.testBit_and, Nat.testBit_xor, Nat.testBit_two_pow_sub_one,
    Nat.testBit_two_pow]
  by_cases h1 : i < 64 <;> by_cases h2 : b = i <;> simp [h1, h2]
  omega

theorem feature_drop_of_ge (m : Nat) {b : Nat} (hb : 64 ≤ b) : feature_drop m b = m := by
  unfold feature_drop shl1_u64
  rw [if_neg (by omega)]

/-- One step of the validation keeps bit `i` exactly when the mask had it and
the entry, if it fires on a real feature position, does not name `i`. -/
theorem validate_step_testBit (c m : Nat) (r : prereq_rule) (i : Nat) :
    (if rule_in_force r && !(c.testBit r.prerequisite) then feature_drop m r.dependent
      else m).testBit i = true ↔
    (m.testBit i = true ∧
      ((rule_in_force r = true ∧ c.testBit r.prerequisite = false) →
        r.dependent < 64 → (i < 64 ∧ r.dependent ≠ i))) := by
  by_cases hc : (rule_in_force r && !(c.testBit r.prerequisite)) = true
  · rw [if_pos hc]
    have hc2 : rule_in_force r = true ∧ c.testBit r.prerequisite = false := by
      simpa using hc
    by_cases hd : r.dependent < 64
    · rw [feature_drop_testBit m hd]
      simp only [Bool.and_eq_true, decide_eq_true_eq, Bool.not_eq_true_eq_eq_false,
        decide_eq_false_iff_not]
      constructor
      · rintro ⟨h1, h2, h3⟩
        exact ⟨h1, fun _ _ => ⟨h2, h3⟩⟩
      · rintro ⟨h1, h2⟩
        exact ⟨h1, h2 hc2 hd⟩
    · rw [feature_drop_of_ge m (by omega)]
      constructor
      · intro h1
        exact ⟨h1, fun _ h => absurd h hd⟩
      · exact fun h => h.1
  · rw [if_neg hc]
    constructor
    · intro h1
      refine ⟨h1, fun h2 _ => ?_⟩
      exact absurd (by simpa using h2) hc
    · exact fun h => h.1

theorem validate_foldl_testBit (c : Nat) (rules : List prereq_rule) (m i : Nat) :
    (rules.foldl
      (fun m r =>
        if rule_in_force r && !(c.testBit r.prerequisite) then
          feature_drop m r.dependent
        else m) m).testBit i = true ↔
    (m.testBit i = true ∧
      ∀ r ∈ rules, (rule_in_force r = true ∧ c.testBit r.prerequisite = false) →
        r.dependent < 64 → (i < 64 ∧ r.dependent ≠ i)) := by
  induction rules generalizing m with
  | nil => simp
  | cons r rs ih =>
    rw [List.foldl_cons, ih, validate_step_testBit]
    constructor
    · rintro ⟨⟨h1, h2⟩, h3⟩
      refine ⟨h1, fun q hq => ?_⟩
      rcases List.mem_cons.1 hq with rfl | hq
      · exact h2
      · exact h3 q hq
    · rintro ⟨h1, h2⟩
      exact ⟨⟨h1, h2 r (List.mem_cons_self r rs)⟩,
        fun q hq => h2 q (List.mem_cons_of_mem r hq)⟩

/-- Bit `i` survives validation exactly when the candidate has it and no entry
in force with an absent prerequisite names it. -/
theorem validate_features_testBit (rules : List prereq_rule) (c i : Nat) :
    (validate_features rules c).testBit i = true ↔
    (c.testBit i = true ∧
      ∀ r ∈ rules, (rule_in_force r = true ∧ c.testBit r.prerequisite = false) →
        r.dependent < 64 → (i < 64 ∧ r.dependent ≠ i)) :=
  validate_foldl_testBit c rules c i

theorem negotiate_testBit_le (rules : List prereq_rule) (hw : virtio_hw)
    (host_features i : Nat)
    (h : (virtio_negotiate_features rules hw host_features).testBit i = true) :
    host_features.testBit i = true ∧ hw.req_guest_features.testBit i = true := by
  unfold virtio_negotiate_features at h
  have hc := ((validate_features_testBit rules _ i).1 h).1
  simpa [Nat.testBit_and] using hc

theorem and_not_u64_eq_zero {r x : Nat} (hx : x < 2 ^ 64)
    (hsub : ∀ i, r.testBit i = true → x.testBit i = true) :
    r &&& ((2 ^ 64 - 1) ^^^ x) = 0 := by
  apply Nat.eq_of_testBit_eq
  intro i
  simp only [Nat.testBit_and, Nat.testBit_xor, Nat.testBit_two_pow_sub_one,
    Nat.zero_testBit]
  by_cases hr : r.testBit i = true
  · have hxi := hsub i hr
    have hi : i < 64 := by
      by_contra hge
      have : x < 2 ^ i := lt_of_lt_of_le hx (Nat.pow_le_pow_right (by decide) (by omega))
      rw [Nat.testBit_lt_two_pow this] at hxi
      exact absurd hxi (by decide)
    simp [hr, hxi, hi]
  · simp [hr]

theorem scenario_negotiated_testBit (i : Nat) (h : scenario_negotiated.testBit i = true) :
    i ∈ [VIRTIO_NET_F_CSUM, VIRTIO_NET_F_MRG_RXBUF, VIRTIO_NET_F_STATUS,
      VIRTIO_F_VERSION_1] := by
  have hi : i < 33 := by
    by_contra hge
    have hlt : scenario_negotiated < 2 ^ i :=
      lt_of_lt_of_le (by decide : scenario_negotiated < 2 ^ 33)
        (Nat.pow_le_pow_right (by decide) (by omega))
    rw [Nat.testBit_lt_two_pow hlt] at h
    exact absurd h (by decide)
  revert h
  interval_cases i <;> decide

theorem strip_device_bits_keeps_window (r i : Nat) (hi : is_transport_bit i = true) :
    (r &&& ((2 ^ 64 - 1) ^^^ DEVICE_BITS_MASK)).testBit i = r.testBit i := by
  have hm : (2 ^ 64 - 1) ^^^ DEVICE_BITS_MASK = (2 ^ 39 - 1) <<< 24 := by decide
  rw [hm, Nat.testBit_and, Nat.testBit_shiftLeft, Nat.testBit_two_pow_sub_one]
  have hb : 28 ≤ i ∧ i ≤ 34 := by
    simpa [is_transport_bit, VIRTIO_TRANSPORT_F_START, VIRTIO_TRANSPORT_F_END] using hi
  have h1 : decide (i ≥ 24) = true := by simp; omega
  have h2 : decide (i - 24 < 39) = true := by simp; omega
  rw [h1, h2]
  simp

/-- Two candidates that agree on the transport window validate to masks that
agree on the transport window. -/
theorem validate_window_congr (rules : List prereq_rule) (c1 c2 : Nat)
    (hagree : ∀ j, is_transport_bit j = true → c1.testBit j = c2.testBit j)
    (i : Nat) (hi : is_transport_bit i = true)
    (h : (validate_features rules c1).testBit i = true) :
    (validate_features rules c2).testBit i = true := by
  rw [validate_features_testBit] at h ⊢
  refine ⟨by rw [← hagree i hi]; exact h.1, fun r hr hfire hd => ?_⟩
  have hi64 : i < 64 := by
    have : 28 ≤ i ∧ i ≤ 34 := by
      simpa [is_transport_bit, VIRTIO_TRANSPORT_F_START, VIRTIO_TRANSPORT_F_END] using hi
    omega
  refine ⟨hi64, fun hdi => ?_⟩
  -- the entry names `i`, a transport bit, so its prerequisite is a transport bit
  have hforce := hfire.1
  unfold rule_in_force at hforce
  rw [hdi, hi] at hforce
  have hpre : is_transport_bit r.prerequisite = true := by simpa using hforce
  have hfire1 : rule_in_force r = true ∧ c1.testBit r.prerequisite = false :=
    ⟨hfire.1, by rw [hagree _ hpre]; exact hfire.2⟩
  exact (h.2 r hr hfire1 hd).2 hdi

/-! ## Feature negotiation -/

/-- C1: for every prerequisite table, every handle and every 64-bit host
offer, the negotiated mask is a subset of the host-offered mask and of the
handle's requested mask: `result & ~host_features == 0` and
`result & ~req_guest_features == 0` (complement taken on 64 bits), bit by bit. -/
theorem negotiate_subset_of_both (rules : List prereq_rule) (hw : virtio_hw)
    (host_features : Nat) (hh : host_features < 2 ^ 64)
    (hr : hw.req_guest_features < 2 ^ 64) :
    virtio_negotiate_features rules hw host_features &&&
        ((2 ^ 64 - 1) ^^^ host_features) = 0 ∧
    virtio_negotiate_features rules hw host_features &&&
        ((2 ^ 64 - 1) ^^^ hw.req_guest_features) = 0 ∧
    (∀ i : Nat, (virtio_negotiate_features rules hw host_features).testBit i = true →
      host_features.testBit i = true ∧ hw.req_guest_features.testBit i = true) :=
  ⟨and_not_u64_eq_zero hh fun i h => (negotiate_testBit_le rules hw host_features i h).1,
   and_not_u64_eq_zero hr fun i h => (negotiate_testBit_le rules hw host_features i h).2,
   negotiate_testBit_le rules hw host_features⟩

/-- Witness for C1: the example table, a request of 0x100418001 and a host
offer of 0x100018003. -/
theorem negotiate_subset_of_both_witness :
    virtio_negotiate_features example_prereq_rules
        { virtio_hw_zero with req_guest_features := 0x100418001 } 0x100018003 &&&
        ((2 ^ 64 - 1) ^^^ 0x100018003) = 0 ∧
    virtio_negotiate_features example_prereq_rules
        { virtio_hw_zero with req_guest_features := 0x100418001 } 0x100018003 &&&
        ((2 ^ 64 - 1) ^^^
          ({ virtio_hw_zero with req_guest_features := 0x100418001 } :
            virtio_hw).req_guest_features) = 0 ∧
    (∀ i : Nat,
      (virtio_negotiate_features example_prereq_rules
        { virtio_hw_zero with req_guest_features := 0x100418001 } 0x100018003).testBit i
          = true →
      (0x100018003 : Nat).testBit i = true ∧
      ({ virtio_hw_zero with req_guest_features := 0x100418001 } :
        virtio_hw).req_guest_features.testBit i = true) :=
  negotiate_subset_of_both example_prereq_rules
    { virtio_hw_zero with req_guest_features := 0x100418001 } 0x100018003
    (by decide) (by decide)

/-- C2: the scenario of section 8.  The host offers {CSUM, GUEST_CSUM,
MRG_RXBUF, STATUS, VERSION_1} (0x100018003), the driver requests {CSUM,
MRG_RXBUF, STATUS, VERSION_1, MQ} (0x100418001); the negotiated mask is exactly
{CSUM, MRG_RXBUF, STATUS, VERSION_1} (0x100018001), without MQ and without
GUEST_CSUM.  This holds for every prerequisite table that gives none of the
four common bits a prerequisite outside those four. -/
theorem negotiate_scenario (rules : List prereq_rule) (hw : virtio_hw)
    (htable : ∀ r ∈ rules,
      r.dependent ∈ [VIRTIO_NET_F_CSUM, VIRTIO_NET_F_MRG_RXBUF, VIRTIO_NET_F_STATUS,
        VIRTIO_F_VERSION_1] →
      r.prerequisite ∈ [VIRTIO_NET_F_CSUM, VIRTIO_NET_F_MRG_RXBUF, VIRTIO_NET_F_STATUS,
        VIRTIO_F_VERSION_1]) :
    scenario_host_offer = 0x100018003 ∧ scenario_requested = 0x100418001 ∧
    scenario_negotiated = 0x100018001 ∧
    virtio_negotiate_features rules
      { hw with req_guest_features := scenario_requested } scenario_host_offer
      = scenario_negotiated ∧
    (virtio_negotiate_features rules
      { hw with req_guest_features := scenario_requested } scenario_host_offer).testBit
        VIRTIO_NET_F_MQ = false ∧
    (virtio_negotiate_features rules
      { hw with req_guest_features := scenario_requested } scenario_host_offer).testBit
        VIRTIO_NET_F_GUEST_CSUM = false := by
  have hcand : scenario_host_offer &&& scenario_requested = scenario_negotiated := by decide
  have hmain : virtio_negotiate_features rules
      { hw with req_guest_features := scenario_requested } scenario_host_offer
      = scenario_negotiated := by
    unfold virtio_negotiate_features
    show validate_features rules (scenario_host_offer &&& scenario_requested) = _
    rw [hcand]
    apply Nat.eq_of_testBit_eq
    intro i
    by_cases hi : scenario_negotiated.testBit i = true
    · rw [hi, validate_features_testBit]
      have hmem := scenario_negotiated_testBit i hi
      have hi64 : i < 64 := by
        simp only [VIRTIO_NET_F_CSUM, VIRTIO_NET_F_MRG_RXBUF, VIRTIO_NET_F_STATUS,
          VIRTIO_F_VERSION_1, List.mem_cons, List.not_mem_nil, or_false] at hmem
        omega
      refine ⟨hi, fun r hr hfire _ => ⟨hi64, fun hdi => ?_⟩⟩
      have hpre := htable r hr (hdi ▸ hmem)
      have hset : scenario_negotiated.testBit r.prerequisite = true := by
        revert hpre
        generalize r.prerequisite = p
        intro hp
        simp only [List.mem_cons, List.not_mem_nil, or_false] at hp
        rcases hp with rfl | rfl | rfl | rfl <;> decide
      rw [hset] at hfire
      exact absurd hfire.2 (by decide)
    · have hfalse : (validate_features rules scenario_negotiated).testBit i = false := by
        by_contra hne
        exact hi ((validate_features_testBit rules _ i).1 (by simpa using hne)).1
      rw [hfalse]
      simpa using hi
  refine ⟨by decide, by decide, by decide, hmain, ?_, ?_⟩ <;> rw [hmain] <;> decide

/-- Witness for C2: the example table of section 4.1 gives none of the four
common bits a prerequisite. -/
theorem negotiate_scenario_witness :
    virtio_negotiate_features example_prereq_rules
      { virtio_hw_zero with req_guest_features := scenario_requested } scenario_host_offer
      = scenario_negotiated :=
  (negotiate_scenario example_prereq_rules virtio_hw_zero (by decide)).2.2.2.1

/-- C3: transport-window bits negotiate independently of device bits.  For
every prerequisite table, handle, host offer and requested mask `r`,
negotiating with `r` and with `r` stripped of the device bits 0-23 and 63
(`r & ~0x8000000000FFFFFF`) gives results that are equal on bits 28-34
(after masking with 0x7F0000000). -/
theorem transport_bits_negotiate_independently (rules : List prereq_rule)
    (hw : virtio_hw) (host_features r : Nat) :
    virtio_negotiate_features rules { hw with req_guest_features := r } host_features
        &&& TRANSPORT_WINDOW_MASK =
    virtio_negotiate_features rules
        { hw with req_guest_features := r &&& ((2 ^ 64 - 1) ^^^ DEVICE_BITS_MASK) }
        host_features
        &&& TRANSPORT_WINDOW_MASK := by
  apply Nat.eq_of_testBit_eq
  intro i
  unfold TRANSPORT_WINDOW_MASK
  rw [Nat.testBit_and, Nat.testBit_and, transport_mask_testBit]
  cases hi : is_transport_bit i
  · simp
  · simp only [Bool.and_true]
    unfold virtio_negotiate_features
    have hagree : ∀ j, is_transport_bit j = true →
        (host_features &&& r).testBit j =
        (host_features &&& (r &&& ((2 ^ 64 - 1) ^^^ DEVICE_BITS_MASK))).testBit j := by
      intro j hj
      rw [Nat.testBit_and, Nat.testBit_and, strip_device_bits_keeps_window r j hj]
    apply Bool.eq_iff_iff.2
    constructor
    · exact validate_window_congr rules _ _ hagree i hi
    · exact validate_window_congr rules _ _ (fun j hj => (hagree j hj).symm) i hi

/-! ## Auxiliary facts about the status state machine -/

theorem status_bit_iff (s b : Nat) : s &&& (1 <<< b) ≠ 0 ↔ s.testBit b = true :=
  and_shl1_ne_zero_iff s b

theorem vsm_next_reset (d : virtio_dev) : vsm_next d vsm_event.reset = vsm_reset d := rfl

theorem vsm_reset_fields (d : virtio_dev) :
    (vsm_reset d).status = 0 ∧ (vsm_reset d).hw.guest_features = 0 ∧
    (vsm_reset d).state = vsm_state.RESET ∧ (vsm_reset d).features_ok_retained = false := by
  simp [vsm_reset, set_status, VIRTIO_CONFIG_STATUS_RESET]

theorem vsm_add_status_fields (d : virtio_dev) (bit : Nat) (next : vsm_state) :
    (vsm_add_status d bit next).status = (d.status ||| bit) % 256 ∧
    (vsm_add_status d bit next).state = next ∧
    (vsm_add_status d bit next).features_ok_retained = d.features_ok_retained ∧
    (vsm_add_status d bit next).hw = d.hw := by
  simp [vsm_add_status, set_status, get_status]

/-- The retained flag is only ever raised by a read-back that finds
FEATURES_OK still set while the driver waits in FEATURES_OK. -/
theorem vsm_next_retained (d : virtio_dev) (e : vsm_event)
    (h : (vsm_next d e).features_ok_retained = true) :
    (d.features_ok_retained = true ∧ e ≠ vsm_event.reset) ∨
    (e = vsm_event.read_back ∧ d.state = vsm_state.FEATURES_OK ∧
      get_status d &&& VIRTIO_CONFIG_STATUS_FEATURES_OK ≠ 0) := by
  cases e <;> simp only [vsm_next, vsm_step] at h
  all_goals (try split_ifs at h)
  all_goals simp_all [vsm_reset, set_status, vsm_add_status, get_status]

/-- The driver can only come to wait in FEATURES_OK by an accepted write of
the FEATURES_OK bit. -/
theorem vsm_next_state_features_ok (d : virtio_dev) (e : vsm_event)
    (h : (vsm_next d e).state = vsm_state.FEATURES_OK) :
    (d.state = vsm_state.FEATURES_OK ∧ e ≠ vsm_event.reset) ∨
    (e = vsm_event.write_features_ok ∧
      (vsm_step d vsm_event.write_features_ok).isSome = true) := by
  cases e <;> simp only [vsm_next, vsm_step] at h ⊢
  all_goals (try split_ifs at h)
  all_goals simp_all [vsm_reset, set_status, vsm_add_status, get_status]

theorem status_add_testBit_two (s bit : Nat) :
    ((s ||| bit) % 256).testBit 2 = (s.testBit 2 || bit.testBit 2) := by
  have h : (256 : Nat) = 2 ^ 8 := by decide
  rw [h, Nat.testBit_mod_two_pow, Nat.testBit_or]
  simp

/-- The DRIVER_OK bit (bit 2 of the status byte) is only ever raised by the
DRIVER_OK transition, which needs the retained flag. -/
theorem vsm_next_driver_ok_bit (d : virtio_dev) (e : vsm_event)
    (h : (vsm_next d e).status.testBit 2 = true) :
    (d.status.testBit 2 = true ∧ e ≠ vsm_event.reset) ∨
    (e = vsm_event.driver_ok ∧ d.state = vsm_state.FEATURES_OK ∧
      d.features_ok_retained = true) := by
  have c1 : (VIRTIO_CONFIG_STATUS_ACK).testBit 2 = false := by decide
  have c2 : (VIRTIO_CONFIG_STATUS_DRIVER).testBit 2 = false := by decide
  have c3 : (VIRTIO_CONFIG_STATUS_FEATURES_OK).testBit 2 = false := by decide
  have c4 : (VIRTIO_CONFIG_STATUS_FAILED).testBit 2 = false := by decide
  have c5 : (VIRTIO_CONFIG_STATUS_DEV_NEED_RESET).testBit 2 = false := by decide
  cases e <;> simp only [vsm_next, vsm_step] at h ⊢
  all_goals (try split_ifs at h)
  all_goals
    simp_all [vsm_reset, set_status, vsm_add_status, get_status, status_add_testBit_two,
      VIRTIO_CONFIG_STATUS_RESET]

/-- Once the driver is past FEATURES_OK, only a reset brings it back. -/
theorem vsm_next_late (d : virtio_dev) (e : vsm_event) (he : e ≠ vsm_event.reset)
    (h : d.state = vsm_state.DRIVER_OK ∨ d.state = vsm_state.FAILED ∨
      d.state = vsm_state.NEEDS_RESET) :
    (vsm_next d e).state = vsm_state.DRIVER_OK ∨ (vsm_next d e).state = vsm_state.FAILED ∨
      (vsm_next d e).state = vsm_state.NEEDS_RESET := by
  cases e <;> simp only [vsm_next, vsm_step]
  all_goals (try split_ifs)
  all_goals simp_all [vsm_add_status, set_status, get_status]

/-- The retained flag stays up until the next reset. -/
theorem vsm_next_retained_mono (d : virtio_dev) (e : vsm_event) (he : e ≠ vsm_event.reset)
    (h : d.features_ok_retained = true) : (vsm_next d e).features_ok_retained = true := by
  cases e <;> simp only [vsm_next, vsm_step]
  all_goals (try split_ifs)
  all_goals simp_all [vsm_add_status, set_status, get_status]

theorem vsm_run_snoc (d : virtio_dev) (es : List vsm_event) (e : vsm_event) :
    vsm_run d (es ++ [e]) = vsm_next (vsm_run d es) e := by
  simp [vsm_run, List.foldl_append]

/-- The three facts carried along every run from a freshly reset device: the
DRIVER_OK bit implies the retained flag and a state past FEATURES_OK; waiting
in FEATURES_OK implies an accepted write of the bit since the last reset; the
retained flag implies such a write followed by a read-back that found the bit
set, both since the last reset. -/
theorem vsm_run_invariant (hw : virtio_hw) (es : List vsm_event) :
    ((vsm_run (vsm_init hw) es).status.testBit 2 = true →
      (vsm_run (vsm_init hw) es).features_ok_retained = true ∧
      ((vsm_run (vsm_init hw) es).state = vsm_state.DRIVER_OK ∨
        (vsm_run (vsm_init hw) es).state = vsm_state.FAILED ∨
        (vsm_run (vsm_init hw) es).state = vsm_state.NEEDS_RESET)) ∧
    ((vsm_run (vsm_init hw) es).state = vsm_state.FEATURES_OK →
      ∃ pre mid, es = pre ++ vsm_event.write_features_ok :: mid ∧
        vsm_event.reset ∉ mid ∧
        (vsm_step (vsm_run (vsm_init hw) pre) vsm_event.write_features_ok).isSome = true) ∧
    ((vsm_run (vsm_init hw) es).features_ok_retained = true →
      ∃ pre mid post,
        es = pre ++ vsm_event.write_features_ok :: (mid ++ vsm_event.read_back :: post) ∧
        vsm_event.reset ∉ mid ∧ vsm_event.reset ∉ post ∧
        (vsm_step (vsm_run (vsm_init hw) pre) vsm_event.write_features_ok).isSome = true ∧
        (vsm_run (vsm_init hw) (pre ++ vsm_event.write_features_ok :: mid)).state
          = vsm_state.FEATURES_OK ∧
        get_status (vsm_run (vsm_init hw) (pre ++ vsm_event.write_features_ok :: mid))
          &&& VIRTIO_CONFIG_STATUS_FEATURES_OK ≠ 0 ∧
        (vsm_run (vsm_init hw) (pre ++ vsm_event.write_features_ok :: mid)).status.testBit 2
          = false) := by
  induction es using List.reverseRecOn with
  | nil =>
    refine ⟨?_, ?_, ?_⟩ <;> intro h <;>
      simp [vsm_run, vsm_init, vsm_reset, set_status, VIRTIO_CONFIG_STATUS_RESET] at h
  | append_singleton es e ih =>
    obtain ⟨ihA, ihC, ihB⟩ := ih
    rw [vsm_run_snoc]
    refine ⟨?_, ?_, ?_⟩
    · intro h
      rcases vsm_next_driver_ok_bit _ e h with ⟨hbit, hne⟩ | ⟨rfl, hst, hret⟩
      · obtain ⟨hret, hlate⟩ := ihA hbit
        exact ⟨vsm_next_retained_mono _ e hne hret, vsm_next_late _ e hne hlate⟩
      · refine ⟨vsm_next_retained_mono _ _ (by simp) hret, Or.inl ?_⟩
        simp [vsm_next, vsm_step, hst, hret, vsm_add_status]
    · intro h
      rcases vsm_next_state_features_ok _ e h with ⟨hst, hne⟩ | ⟨rfl, hacc⟩
      · obtain ⟨pre, mid, hes, hmid, hacc⟩ := ihC hst
        refine ⟨pre, mid ++ [e], ?_, ?_, hacc⟩
        · rw [hes]; simp
        · simp only [List.mem_append, List.mem_singleton, not_or]
          exact ⟨hmid, fun heq => hne heq.symm⟩
      · exact ⟨es, [], by simp, by simp, hacc⟩
    · intro h
      rcases vsm_next_retained _ e h with ⟨hret, hne⟩ | ⟨rfl, hst, hbit⟩
      · obtain ⟨pre, mid, post, hes, hmid, hpost, hrest⟩ := ihB hret
        refine ⟨pre, mid, post ++ [e], ?_, hmid, ?_, hrest⟩
        · rw [hes]; simp
        · simp only [List.mem_append, List.mem_singleton, not_or]
          exact ⟨hpost, fun heq => hne heq.symm⟩
      · obtain ⟨pre, mid, hes, hmid, hacc⟩ := ihC hst
        refine ⟨pre, mid, [], ?_, hmid, by simp, hacc, ?_, ?_, ?_⟩
        · rw [hes]; simp
        · rw [← hes]; exact hst
        · rw [← hes]; exact hbit
        · rw [← hes]
          by_contra hset
          have hlate := (ihA (by simpa using hset)).2
          rw [hst] at hlate
          simp at hlate

/-! ## The device-status state machine -/

/-- C9: in every run from a freshly reset device, if the status byte has
DRIVER_OK set then, since the last reset of the run, the FEATURES_OK bit was
written (the write was accepted) and afterwards read back through
`get_status` as still set, while the driver waited in FEATURES_OK and DRIVER_OK
was not yet set.  No reachable state has DRIVER_OK without it. -/
theorem driver_ok_needs_retained_features_ok (hw : virtio_hw) (es : List vsm_event)
    (h : get_status (vsm_run (vsm_init hw) es) &&& VIRTIO_CONFIG_STATUS_DRIVER_OK ≠ 0) :
    ∃ pre mid post,
      es = pre ++ vsm_event.write_features_ok :: (mid ++ vsm_event.read_back :: post) ∧
      vsm_event.reset ∉ mid ∧ vsm_event.reset ∉ post ∧
      (vsm_step (vsm_run (vsm_init hw) pre) vsm_event.write_features_ok).isSome = true ∧
      (vsm_run (vsm_init hw) (pre ++ vsm_event.write_features_ok :: mid)).state
        = vsm_state.FEATURES_OK ∧
      get_status (vsm_run (vsm_init hw) (pre ++ vsm_event.write_features_ok :: mid))
        &&& VIRTIO_CONFIG_STATUS_FEATURES_OK ≠ 0 ∧
      get_status (vsm_run (vsm_init hw) (pre ++ vsm_event.write_features_ok :: mid))
        &&& VIRTIO_CONFIG_STATUS_DRIVER_OK = 0 := by
  have hbit : (vsm_run (vsm_init hw) es).status.testBit 2 = true :=
    (status_bit_iff _ 2).1 h
  obtain ⟨hA, _, hB⟩ := vsm_run_invariant hw es
  obtain ⟨pre, mid, post, hes, hmid, hpost, hacc, hst, hfok, hclear⟩ := hB (hA hbit).1
  refine ⟨pre, mid, post, hes, hmid, hpost, hacc, hst, hfok, ?_⟩
  by_contra hne
  have := (status_bit_iff _ 2).1 hne
  rw [get_status, hclear] at this
  exact absurd this (by decide)

/-- Witness for C9: the full bring-up sequence reaches DRIVER_OK. -/
theorem driver_ok_needs_retained_features_ok_witness :
    ∃ pre mid post,
      [vsm_event.acknowledge, vsm_event.driver, vsm_event.negotiate [] 0x100018003,
        vsm_event.write_features_ok, vsm_event.read_back, vsm_event.driver_ok]
        = pre ++ vsm_event.write_features_ok :: (mid ++ vsm_event.read_back :: post) ∧
      vsm_event.reset ∉ mid ∧ vsm_event.reset ∉ post ∧
      (vsm_step (vsm_run (vsm_init virtio_hw_zero) pre)
        vsm_event.write_features_ok).isSome = true ∧
      (vsm_run (vsm_init virtio_hw_zero) (pre ++ vsm_event.write_features_ok :: mid)).state
        = vsm_state.FEATURES_OK ∧
      get_status (vsm_run (vsm_init virtio_hw_zero)
          (pre ++ vsm_event.write_features_ok :: mid))
        &&& VIRTIO_CONFIG_STATUS_FEATURES_OK ≠ 0 ∧
      get_status (vsm_run (vsm_init virtio_hw_zero)
          (pre ++ vsm_event.write_features_ok :: mid))
        &&& VIRTIO_CONFIG_STATUS_DRIVER_OK = 0 :=
  driver_ok_needs_retained_features_ok virtio_hw_zero
    [vsm_event.acknowledge, vsm_event.driver, vsm_event.negotiate [] 0x100018003,
      vsm_event.write_features_ok, vsm_event.read_back, vsm_event.driver_ok]
    (by decide)

/-- C10: reset, applied to a device in any state, yields negotiated features 0
and device status 0, also as the last event of any run; after it
`virtio_with_feature` returns 0 for every bit of the mask. -/
theorem reset_clears_features_and_status (d : virtio_dev) :
    (vsm_reset d).hw.guest_features = 0 ∧ get_status (vsm_reset d) = 0 ∧
    vsm_step d vsm_event.reset = some (vsm_reset d) ∧
    (∀ es : List vsm_event,
      (vsm_run d (es ++ [vsm_event.reset])).hw.guest_features = 0 ∧
      get_status (vsm_run d (es ++ [vsm_event.reset])) = 0) ∧
    (∀ b : Nat,
      virtio_with_feature (vsm_reset d).hw b = if b < 64 then some 0 else none) := by
  have hf := vsm_reset_fields
  refine ⟨(hf d).2.1, (hf d).1, rfl, ?_, ?_⟩
  · intro es
    rw [vsm_run_snoc, vsm_next_reset]
    exact ⟨(hf _).2.1, (hf _).1⟩
  · intro b
    by_cases hb : b < 64
    · rw [virtio_with_feature_of_lt _ hb, (hf d).2.1, if_pos hb]
      simp
    · rw [if_neg hb]
      simp [virtio_with_feature, shl1_u64, hb]

/-! ## The virtqueue lifecycle -/

/-- C11: for every device and backend, `setup_queue` called with a queue id
equal to or greater than `max_queue_pairs` fails with a precondition error and
hands the backend back untouched: no backend operation was invoked, the call
record included. -/
theorem setup_queue_rejects_queue_id_out_of_range (d : virtio_dev) (b : vq_backend)
    (queue_id : Nat) (h : d.hw.max_queue_pairs ≤ queue_id) :
    setup_queue d b queue_id = (Except.error vq_error.Precondition, b) ∧
    (setup_queue d b queue_id).2.calls = b.calls := by
  have hmain : setup_queue d b queue_id = (Except.error vq_error.Precondition, b) := by
    unfold setup_queue
    by_cases hs : at_or_past_features_ok d.state = false
    · rw [if_pos hs]
    · rw [if_neg hs, if_pos h]
  exact ⟨hmain, by rw [hmain]⟩

/-- Witness for C11: a device at FEATURES_OK with 4 queue pairs, queue id 4. -/
theorem setup_queue_rejects_queue_id_out_of_range_witness :
    setup_queue
        { hw := { virtio_hw_zero with max_queue_pairs := 4 },
          state := vsm_state.FEATURES_OK, status := 11,
          features_written := true, features_ok_retained := true }
        { depths := [256, 256, 256, 256, 256], active := [], calls := [] } 4
      = (Except.error vq_error.Precondition,
          { depths := [256, 256, 256, 256, 256], active := [], calls := [] }) ∧
    (setup_queue
        { hw := { virtio_hw_zero with max_queue_pairs := 4 },
          state := vsm_state.FEATURES_OK, status := 11,
          features_written := true, features_ok_retained := true }
        { depths := [256, 256, 256, 256, 256], active := [], calls := [] } 4).2.calls
      = ({ depths := [256, 256, 256, 256, 256], active := [], calls := [] } :
          vq_backend).calls :=
  setup_queue_rejects_queue_id_out_of_range
    { hw := { virtio_hw_zero with max_queue_pairs := 4 },
      state := vsm_state.FEATURES_OK, status := 11,
      features_written := true, features_ok_retained := true }
    { depths := [256, 256, 256, 256, 256], active := [], calls := [] } 4 (by decide)

/-! ## The transport window and the constants -/

/-- C12: among the feature bits the header defines, those inside the window
`[VIRTIO_TRANSPORT_F_START, VIRTIO_TRANSPORT_F_END]` are exactly
RING_F_INDIRECT_DESC (28), RING_F_EVENT_IDX (29), VERSION_1 (32),
IOMMU_PLATFORM (33) and RING_PACKED (34); every `VIRTIO_NET_F_*` constant
(0, 1, 3, 5, 7-23, 63) lies outside it. -/
theorem transport_device_partition :
    (∀ b ∈ header_feature_bits,
      (VIRTIO_TRANSPORT_F_START ≤ b ∧ b ≤ VIRTIO_TRANSPORT_F_END) ↔
      b ∈ [VIRTIO_RING_F_INDIRECT_DESC, VIRTIO_RING_F_EVENT_IDX, VIRTIO_F_VERSION_1,
        VIRTIO_F_IOMMU_PLATFORM, VIRTIO_F_RING_PACKED]) ∧
    [VIRTIO_RING_F_INDIRECT_DESC, VIRTIO_RING_F_EVENT_IDX, VIRTIO_F_VERSION_1,
      VIRTIO_F_IOMMU_PLATFORM, VIRTIO_F_RING_PACKED] = [28, 29, 32, 33, 34] ∧
    (∀ b ∈ [VIRTIO_RING_F_INDIRECT_DESC, VIRTIO_RING_F_EVENT_IDX, VIRTIO_F_VERSION_1,
      VIRTIO_F_IOMMU_PLATFORM, VIRTIO_F_RING_PACKED], b ∈ header_feature_bits) ∧
    net_feature_bits =
      [0, 1, 3, 5, 7, 8, 9, 10, 11, 12, 13, 14, 15, 16, 17, 18, 19, 20, 21, 22, 23, 63] ∧
    (∀ b ∈ net_feature_bits, b ∈ header_feature_bits) ∧
    (∀ b ∈ net_feature_bits,
      ¬ (VIRTIO_TRANSPORT_F_START ≤ b ∧ b ≤ VIRTIO_TRANSPORT_F_END)) := by
  refine ⟨by decide, by decide, by decide, by decide, by decide, by decide⟩

/-- C13: the header against its own comment.  The comment above the two
delimiters gives the transport range as bits 28 through 31, but the delimiters
are 28 and 34: `VIRTIO_TRANSPORT_F_END` is not 31 (nor 32), bits 32
(VERSION_1) and 33 (IOMMU_PLATFORM) lie inside the delimited range whether the
upper delimiter is included or not, and under neither reading is the range
28 through 31. -/
theorem transport_range_is_not_28_to_31 :
    VIRTIO_TRANSPORT_F_START = 28 ∧ VIRTIO_TRANSPORT_F_END = 34 ∧
    VIRTIO_TRANSPORT_F_END ≠ 31 ∧ VIRTIO_TRANSPORT_F_END ≠ 32 ∧
    (VIRTIO_TRANSPORT_F_START ≤ VIRTIO_F_VERSION_1 ∧
      VIRTIO_F_VERSION_1 < VIRTIO_TRANSPORT_F_END) ∧
    (VIRTIO_TRANSPORT_F_START ≤ VIRTIO_F_IOMMU_PLATFORM ∧
      VIRTIO_F_IOMMU_PLATFORM < VIRTIO_TRANSPORT_F_END) ∧
    ¬ (∀ b : Nat, (VIRTIO_TRANSPORT_F_START ≤ b ∧ b ≤ VIRTIO_TRANSPORT_F_END) ↔
        (28 ≤ b ∧ b ≤ 31)) ∧
    ¬ (∀ b : Nat, (VIRTIO_TRANSPORT_F_START ≤ b ∧ b < VIRTIO_TRANSPORT_F_END) ↔
        (28 ≤ b ∧ b ≤ 31)) := by
  refine ⟨rfl, rfl, by decide, by decide, by decide, by decide, fun h => ?_, fun h => ?_⟩
  · have h32 := (h 32).1 (by decide)
    omega
  · have h32 := (h 32).1 (by decide)
    omega

/-! ## Operation dispatch -/

/-- C14: operation dispatch is a lookup by port identity only.  For a registry
of `RTE_MAX_ETHPORTS` slots and a handle whose `port_id` is below that bound,
`VIRTIO_OPS(hw)` is the binding stored in slot `port_id` (the lookup does not
fail), and every handle with the same `port_id` resolves to the same binding,
whatever its other fields are. -/
theorem virtio_ops_lookup_by_port_id (RTE_MAX_ETHPORTS : Nat)
    (registry : List virtio_hw_internal) (hw : virtio_hw)
    (hlen : registry.length = RTE_MAX_ETHPORTS) (hport : hw.port_id < RTE_MAX_ETHPORTS) :
    (∃ hidx : hw.port_id < registry.length,
      VIRTIO_OPS registry hw = some (registry.get ⟨hw.port_id, hidx⟩).virtio_ops) ∧
    (∀ other : virtio_hw, other.port_id = hw.port_id →
      VIRTIO_OPS registry other = VIRTIO_OPS registry hw) := by
  have hidx : hw.port_id < registry.length := by omega
  refine ⟨⟨hidx, ?_⟩, fun other hsame => ?_⟩
  · unfold VIRTIO_OPS
    rw [List.getElem?_eq_getElem hidx]
    rfl
  · unfold VIRTIO_OPS
    rw [hsame]

/-- Witness for C14: a registry of three slots and a handle of port 1. -/
theorem virtio_ops_lookup_by_port_id_witness :
    (∃ hidx : ({ virtio_hw_zero with port_id := 1 } : virtio_hw).port_id <
        ([⟨10⟩, ⟨20⟩, ⟨30⟩] : List virtio_hw_internal).length,
      VIRTIO_OPS [⟨10⟩, ⟨20⟩, ⟨30⟩] { virtio_hw_zero with port_id := 1 } =
        some (([⟨10⟩, ⟨20⟩, ⟨30⟩] : List virtio_hw_internal).get
          ⟨({ virtio_hw_zero with port_id := 1 } : virtio_hw).port_id, hidx⟩).virtio_ops) ∧
    (∀ other : virtio_hw,
      other.port_id = ({ virtio_hw_zero with port_id := 1 } : virtio_hw).port_id →
      VIRTIO_OPS [⟨10⟩, ⟨20⟩, ⟨30⟩] other =
        VIRTIO_OPS [⟨10⟩, ⟨20⟩, ⟨30⟩] { virtio_hw_zero with port_id := 1 }) :=
  virtio_ops_lookup_by_port_id 3 [⟨10⟩, ⟨20⟩, ⟨30⟩]
    { virtio_hw_zero with port_id := 1 } rfl (by decide)

/-! ## The feature tests on the catalogue -/

theorem header_feature_bits_lt_64 : ∀ b ∈ header_feature_bits, b < 64 := by decide

/-- C15: the 32 feature-bit constants of the header are pairwise distinct and
each below 64, so for each of them `1ULL << bit` is defined and is the nonzero
single-bit mask `2 ^ bit`, different from the mask of every other feature; the
test of one feature is not answered by the bit of another. -/
theorem feature_bits_distinct_single_bit_masks :
    header_feature_bits.length = 32 ∧ header_feature_bits.Nodup ∧
    (∀ b ∈ header_feature_bits,
      b < 64 ∧ shl1_u64 b = some (2 ^ b) ∧ 2 ^ b ≠ 0 ∧ 2 ^ b < 2 ^ 64) ∧
    (∀ b1 ∈ header_feature_bits, ∀ b2 ∈ header_feature_bits,
      b1 ≠ b2 → shl1_u64 b1 ≠ shl1_u64 b2) ∧
    (∀ b1 ∈ header_feature_bits, ∀ b2 ∈ header_feature_bits, b1 ≠ b2 →
      ∀ hw : virtio_hw,
        virtio_with_feature { hw with guest_features := 2 ^ b1 } b1 = some 1 ∧
        virtio_with_feature { hw with guest_features := 2 ^ b1 } b2 = some 0) := by
  have hlt := header_feature_bits_lt_64
  have hshl : ∀ b, b < 64 → shl1_u64 b = some (2 ^ b) := by
    intro b hb
    rw [shl1_u64_of_lt hb, Nat.one_shiftLeft]
  refine ⟨by decide, by decide, ?_, ?_, ?_⟩
  · intro b hb
    exact ⟨hlt b hb, hshl b (hlt b hb), Nat.pos_iff_ne_zero.1 (Nat.two_pow_pos b),
      Nat.pow_lt_pow_right (by decide) (hlt b hb)⟩
  · intro b1 h1 b2 h2 hne heq
    rw [hshl b1 (hlt b1 h1), hshl b2 (hlt b2 h2)] at heq
    exact hne (Nat.pow_right_injective (le_refl 2) (Option.some.inj heq))
  · intro b1 h1 b2 h2 hne hw
    rw [virtio_with_feature_of_lt _ (hlt b1 h1), virtio_with_feature_of_lt _ (hlt b2 h2)]
    simp only [Nat.testBit_two_pow]
    simp [hne]

/-- C16: the membership test distributes over intersection.  For all masks
`a` and `b` and every bit index below 64, a handle whose `guest_features` is
`a & b` tests 1 at that index exactly when the bit is set in `a` and in `b`;
so `virtio_with_packed_queue` is 1 exactly when both have bit 34. -/
theorem with_feature_distributes_over_and (hw : virtio_hw) (a b i : Nat) (hi : i < 64) :
    (virtio_with_feature { hw with guest_features := a &&& b } i = some 1 ↔
      (a.testBit i = true ∧ b.testBit i = true)) ∧
    (virtio_with_feature { hw with guest_features := a &&& b } i = some 1 ↔
      (virtio_with_feature { hw with guest_features := a } i = some 1 ∧
        virtio_with_feature { hw with guest_features := b } i = some 1)) ∧
    (virtio_with_packed_queue { hw with guest_features := a &&& b } = some 1 ↔
      (a.testBit 34 = true ∧ b.testBit 34 = true)) := by
  have key : ∀ (x j : Nat), j < 64 →
      (virtio_with_feature { hw with guest_features := x } j = some 1 ↔
        x.testBit j = true) := by
    intro x j hj
    rw [virtio_with_feature_of_lt _ hj]
    cases h : x.testBit j <;> simp [h]
  refine ⟨?_, ?_, ?_⟩
  · rw [key _ i hi, Nat.testBit_and, Bool.and_eq_true]
  · rw [key _ i hi, key _ i hi, key _ i hi, Nat.testBit_and, Bool.and_eq_true]
  · unfold virtio_with_packed_queue VIRTIO_F_RING_PACKED
    rw [key _ 34 (by decide), Nat.testBit_and, Bool.and_eq_true]

/-- Witness for C16: host offer 0x100018003, request 0x100418001, bit 15. -/
theorem with_feature_distributes_over_and_witness :
    virtio_with_feature
      { virtio_hw_zero with guest_features := 0x100018003 &&& 0x100418001 } 15 = some 1 ↔
      ((0x100018003 : Nat).testBit 15 = true ∧ (0x100418001 : Nat).testBit 15 = true) :=
  (with_feature_distributes_over_and virtio_hw_zero 0x100018003 0x100418001 15
    (by decide)).1

/-- C17: `virtio_with_feature` reads only the negotiated mask.  Two handles
that agree on `guest_features` get the same answer at every bit index,
whatever their other fields; the requested mask does not enter the result (a
bit set in `req_guest_features` and clear in `guest_features` tests 0); and the
call leaves the handle as it was. -/
theorem with_feature_reads_only_guest_features (hw1 hw2 : virtio_hw)
    (h : hw1.guest_features = hw2.guest_features) :
    (∀ bit : Nat, virtio_with_feature hw1 bit = virtio_with_feature hw2 bit) ∧
    (∀ (bit r : Nat),
      virtio_with_feature { hw1 with req_guest_features := r } bit
        = virtio_with_feature hw1 bit) ∧
    (∀ bit : Nat, bit < 64 → hw1.req_guest_features.testBit bit = true →
      hw1.guest_features.testBit bit = false → virtio_with_feature hw1 bit = some 0) ∧
    (∀ bit : Nat, (virtio_with_feature_call hw1 bit).2 = hw1 ∧
      (virtio_with_feature_call hw1 bit).1 = virtio_with_feature hw2 bit) := by
  have hsame : ∀ bit : Nat, virtio_with_feature hw1 bit = virtio_with_feature hw2 bit := by
    intro bit
    unfold virtio_with_feature
    rw [h]
  refine ⟨hsame, fun bit r => rfl, ?_, fun bit => ⟨rfl, hsame bit⟩⟩
  intro bit hb _ hclear
  rw [virtio_with_feature_of_lt _ hb, hclear]
  simp

/-- Witness for C17: two handles with the same negotiated mask 0x100018001,
different requested masks and different ports, tested at MQ. -/
theorem with_feature_reads_only_guest_features_witness :
    virtio_with_feature
      { virtio_hw_zero with guest_features := 0x100018001,
                            req_guest_features := 0x100418001 } VIRTIO_NET_F_MQ =
    virtio_with_feature
      { virtio_hw_zero with guest_features := 0x100018001, port_id := 7 } VIRTIO_NET_F_MQ :=
  (with_feature_reads_only_guest_features
    { virtio_hw_zero with guest_features := 0x100018001,
                          req_guest_features := 0x100418001 }
    { virtio_hw_zero with guest_features := 0x100018001, port_id := 7 } rfl).1
    VIRTIO_NET_F_MQ
